import Mathlib

/-!
Verification development for the goalt chatbot backend (src/app.js and its
mongoose models).  The data model and handlers are shallowly embedded:
JS numbers are modelled as `Int` for counters and day-of-week values and as
`Rat` for timestamps (JS numbers are floats; `d.getTime()` values and the
divisions by 1000 stay exact in `Rat` for all realistic magnitudes).
Mongo documents become Lean structures; each handler becomes a pure
function on a single-user system state, mirroring the net effect of the
callback-chained store operations in the source.
-/

namespace Goalt

/-- The fields of `new Date()` consumed by the source: `getTime()` (ms),
`getDay()` (0..6), `getMonth()`, `getDate()`. -/
structure JsDate where
  time : ℚ
  day : ℤ
  month : ℤ
  date : ℤ
deriving DecidableEq, Repr

/-- `goalSchema` from src/models (unnamed part): user, name, streak, log,
lastUpdate, lastDay, total; plus the Mongo-assigned `_id`. -/
structure Goal where
  id : ℤ
  user : ℤ
  name : String
  streak : ℤ
  log : List String
  lastUpdate : ℚ
  lastDay : ℤ
  total : ℤ
deriving DecidableEq, Repr

/-- `userSchema` from src/models/models.js: name (sender id), status,
numGoals, finished, lastPicTime. -/
structure User where
  name : ℤ
  status : String
  numGoals : ℤ
  finished : List String
  lastPicTime : ℤ
deriving DecidableEq, Repr

/-- Single-user view of the persistence store: the user's document, the
goal documents, and a counter supplying fresh Mongo ids. -/
structure Sys where
  user : User
  goals : List Goal
  nextId : ℤ
deriving DecidableEq, Repr

/-- Result of the `streak` decision function (the string literals
"add" / "keep" / "reset" returned at src/app.js lines 663, 670, 674). -/
inductive StreakRes where
  | add
  | keep
  | reset
deriving DecidableEq, Repr

/-- Event kind passed to `streakProcess` as `type`: `"prog"` or `"view"`. -/
inductive EventType where
  | prog
  | view
deriving DecidableEq, Repr

/-- `streak(senderID, goal)`, src/app.js lines 652-675.
`diffDay = day - goal.lastDay`, `diffTime = (time - goal.lastUpdate)/1000`;
returns "add" when the day moved forward by one (with Sunday wrap `-6`)
and less than `86400 * 2` seconds elapsed, "keep" on the same day,
otherwise "reset". -/
def streak (now : JsDate) (g : Goal) : StreakRes :=
  let day := now.day
  let diffDay := day - g.lastDay
  let diffTime : ℚ := (now.time - g.lastUpdate) / 1000
  if (diffDay = 1 ∨ diffDay = -6) ∧ diffTime < 86400 * 2 then .add
  else if diffDay = 0 then .keep
  else .reset

/-- The increment chosen at src/app.js lines 612-616: 1 for `"prog"`,
0 otherwise. -/
def increment : EventType → ℤ
  | .prog => 1
  | .view => 0

/-- `streakProcess(id, type, senderID)` restricted to its effect on the
goal document, src/app.js lines 610-650.  `newStreak` is
`result.streak + inc` on "add", `Math.max(inc, result.streak)` on "keep",
`inc` otherwise; `total = result.total + inc`.  On "reset" the goal's
streak field is updated; when `type == "prog"` the goal is updated with
`streak`, `lastUpdate = d.getTime()`, `lastDay = d.getDay()`, `total`
(overwriting the streak written by the reset branch, if any). -/
def streakProcess (ty : EventType) (now : JsDate) (g : Goal) : Goal :=
  let inc := increment ty
  let res := streak now g
  let newStreak : ℤ :=
    match res with
    | .add => g.streak + inc
    | .keep => max inc g.streak
    | .reset => inc
  let total := g.total + inc
  let g1 := if res = .reset then { g with streak := newStreak } else g
  if ty = .prog then
    { g1 with streak := newStreak, lastUpdate := now.time,
              lastDay := now.day, total := total }
  else g1

/-- The goal document created by `nameGoal`, src/app.js lines 459-467:
streak 0, empty log, `lastUpdate = d.getTime() / 1000`,
`lastDay = d.getDay()`, total 0. -/
def newGoal (uid gid : ℤ) (nm : String) (now : JsDate) : Goal :=
  { id := gid, user := uid, name := nm, streak := 0, log := [],
    lastUpdate := now.time / 1000, lastDay := now.day, total := 0 }

/-- A sequence of streak-engine invocations (event kind and wall-clock
date of each) applied to one goal document. -/
def applyStreakEvents (es : List (EventType × JsDate)) (g : Goal) : Goal :=
  es.foldl (fun g e => streakProcess e.1 e.2 g) g

/-- `messageText.toLowerCase()`, src/app.js line 374 (JS lowercases the
code units; on the ASCII inputs concerned this is `Char.toLower`
pointwise). -/
def jsToLower (s : String) : String :=
  ⟨s.data.map Char.toLower⟩

/-- `messageText.charAt(0).toUpperCase() + messageText.slice(1)`,
src/app.js line 446. -/
def jsCapitalize (s : String) : String :=
  ⟨(s.data.take 1).map Char.toUpper ++ s.data.drop 1⟩

/-- `s.substring(0, n)` on a JS string (by code unit / character). -/
def strTake (s : String) (n : ℕ) : String :=
  ⟨s.data.take n⟩

/-- `s.substring(n, s.length)` on a JS string. -/
def strDrop (s : String) (n : ℕ) : String :=
  ⟨s.data.drop n⟩

/-- `gmodels.Goal.findOne({user:senderID, name:messageText})`,
src/app.js line 451. -/
def goalFindOne (goals : List Goal) (uid : ℤ) (nm : String) : Option Goal :=
  goals.find? (fun g => g.user == uid && g.name == nm)

/-- `makeGoal(senderID)`, src/app.js lines 429-443: when
`result.numGoals == 5` only messages are sent; otherwise the user's
status is set to `'naming_goal'`. -/
def makeGoal (s : Sys) : Sys :=
  if s.user.numGoals = 5 then s
  else { s with user := { s.user with status := "naming_goal" } }

/-- `nameGoal(senderID, messageText)`, src/app.js lines 445-488.
The text is capitalized; length > 100 returns before anything else runs.
Otherwise two store pipelines fire: the `Goal.findOne` chain, which on a
duplicate name stops and on a fresh name saves the new goal and sets the
user's status to `'null'`; and, unconditionally (it is outside that
callback), the goal-count chain setting `numGoals = result.numGoals + 1`
(lines 480-487).  The two chains touch disjoint fields, so their net
sequential effect is as composed here. -/
def nameGoal (now : JsDate) (messageText : String) (s : Sys) : Sys :=
  let mt := jsCapitalize messageText
  if mt.length > 100 then s
  else
    let s1 :=
      match goalFindOne s.goals s.user.name mt with
      | some _ => s
      | none =>
        { s with goals := s.goals ++ [newGoal s.user.name s.nextId mt now],
                 nextId := s.nextId + 1,
                 user := { s.user with status := "null" } }
    { s1 with user := { s1.user with numGoals := s1.user.numGoals + 1 } }

/-- `logGoal(senderID, id, text)`, src/app.js lines 678-703: length > 96
returns with no store mutation; otherwise the matching goal's log gets
`String(d.getMonth()) + '/' + d.getDate() + ' ' + text` unshifted onto
it and the user's status is set to `'null'`.  (A missing goal would make
the source dereference `null`; it is modelled as a no-op and never
reached by the claims, which concern an existing goal.) -/
def logGoal (idStr : String) (text : String) (now : JsDate) (s : Sys) : Sys :=
  if text.length > 96 then s
  else
    match s.goals.find? (fun g => toString g.id == idStr) with
    | none => s
    | some _ =>
      { s with
        goals := s.goals.map (fun g =>
          if toString g.id == idStr then
            { g with log := (toString now.month ++ "/" ++ toString now.date
                             ++ " " ++ text) :: g.log }
          else g),
        user := { s.user with status := "null" } }

/-- The `"prog"` quick-reply branch of `receivedMessage`, src/app.js
lines 281-288: `streakProcess(id, "prog", senderID)` runs here, and the
user's status becomes `'logging_goal' + id`. -/
def progQuickReply (id : ℤ) (now : JsDate) (s : Sys) : Sys :=
  { s with
    goals := s.goals.map (fun g =>
      if g.id == id then streakProcess .prog now g else g),
    user := { s.user with status := "logging_goal" ++ toString id } }

/-- The `"yes "` (confirmed delete) quick-reply branch, src/app.js lines
304-325: `Goal.remove` by id; removing zero documents is not a store
error, so `err` is null and the success callback always runs, setting
`numGoals = result.numGoals - 1`. -/
def deleteYes (id : ℤ) (s : Sys) : Sys :=
  { s with goals := s.goals.filter (fun g => g.id ≠ id),
           user := { s.user with numGoals := s.user.numGoals - 1 } }

/-- The `"yef "` (confirmed finish) quick-reply branch, src/app.js lines
326-364.  The in-memory `user.finished` array gets the summary string
`goal.name + ' 🔥' + goal.total` unshifted onto it, but the persisting
call is `models.User.update({"_id": ObjectId(id)}, {$set:{log:oldFin}})`:
it is keyed by the GOAL's id (which is not the user document's `_id`)
and sets a field `log` that the user schema does not have, so it changes
no user document — the stored finished list is unchanged.  The goal is
then removed and `numGoals = result.numGoals - 1` is set.  (A missing
goal would make the source dereference `null`; not reached here.) -/
def finishYef (id : ℤ) (s : Sys) : Sys :=
  match s.goals.find? (fun g => g.id == id) with
  | none => s
  | some _ =>
    { s with goals := s.goals.filter (fun g => g.id ≠ id),
             user := { s.user with numGoals := s.user.numGoals - 1 } }

/-- Text dispatch of `receivedMessage`, src/app.js lines 373-407: the
text is lowercased; status `'naming_goal'` goes to `nameGoal`, a status
starting with `'logging_goal'` goes to `logGoal` with
`status.substring(12)` as the goal id; status `'null'` only sends fixed
replies (no store mutation). -/
def receivedText (now : JsDate) (raw : String) (s : Sys) : Sys :=
  let messageText := jsToLower raw
  if s.user.status = "naming_goal" then nameGoal now messageText s
  else if strTake s.user.status 12 = "logging_goal" then
    logGoal (strDrop s.user.status 12) messageText now s
  else s

/-- The inbound events of the goal-lifecycle flows. -/
inductive UEvent where
  | newGoalPB
  | text (raw : String)
  | progQR (id : ℤ)
  | delYes (id : ℤ)
  | finYef (id : ℤ)
deriving DecidableEq, Repr

/-- One webhook delivery's net effect on the single-user store. -/
def stepSys (now : JsDate) (s : Sys) : UEvent → Sys
  | .newGoalPB => makeGoal s
  | .text raw => receivedText now raw s
  | .progQR id => progQuickReply id now s
  | .delYes id => deleteYes id s
  | .finYef id => finishYef id s

/-- A sequence of webhook deliveries, all at the same wall-clock date
(the date is irrelevant to the goal-count claims). -/
def applySys (now : JsDate) (es : List UEvent) (s : Sys) : Sys :=
  es.foldl (stepSys now) s

/-- The user document created on first contact, src/app.js lines 243-249:
status "null", numGoals 0, finished [], lastPicTime 0. -/
def newUser (senderID : ℤ) : User :=
  { name := senderID, status := "null", numGoals := 0, finished := [],
    lastPicTime := 0 }

/-- A fresh single-user store for sender 7. -/
def initSys : Sys :=
  { user := newUser 7, goals := [], nextId := 1 }

/-- The `"Payload finished"` postback branch of `receivedPostback`,
src/app.js lines 932-943.  `result` is the User document; the loop bound
is `result.length`, a field the user schema does not have, so the JS
comparison `i < undefined` is false on the first test and the loop body
never runs. -/
def userDotLength : Option ℤ := none

/-- The message built by the `"Payload finished"` branch:
`"Here are your finished goals:\u000A"` followed by the loop over
`rev = result.finished.reverse()` bounded by `result.length`
(`undefined`, hence zero iterations). -/
def finishedMessage (u : User) : String :=
  let rev := u.finished.reverse
  let bound : ℕ := match userDotLength with
    | none => 0
    | some n => n.toNat
  (List.range bound).foldl
    (fun m i => m ++ toString (i + 1) ++ ". " ++ rev.getD i "" ++ "\u000A")
    "Here are your finished goals:\u000A"

/-! Concrete stores and event traces used by the closed theorems below. -/

/-- Wall-clock date with all four consumed fields zero-ish; the
goal-count flows do not read the clock. -/
def d0 : JsDate := ⟨0, 0, 0, 1⟩

/-- An event trace in which duplicate-name submissions inside the naming
flow make `numGoals` skip over 5 (it goes 4 → 5 → 6 on rejected
duplicates), after which `makeGoal`'s `numGoals == 5` test never fires
again and a 6th live goal is created. -/
def trace6 : List UEvent :=
  [.newGoalPB, .text "g1", .newGoalPB, .text "g1", .text "g1", .text "g2",
   .newGoalPB, .text "g1", .text "g1", .text "g3", .newGoalPB, .text "g4",
   .newGoalPB, .text "g5", .newGoalPB, .text "g6"]

/-- A user in the naming flow who already owns a goal named "Run". -/
def sDup : Sys :=
  { user := { name := 7, status := "naming_goal", numGoals := 1,
              finished := [], lastPicTime := 0 },
    goals := [{ id := 1, user := 7, name := "Run", streak := 0, log := [],
                lastUpdate := 0, lastDay := 0, total := 0 }],
    nextId := 2 }

/-- A user with one live goal "Run" (total 3) and an empty finished list,
about to confirm finishing it. -/
def sFin : Sys :=
  { user := { name := 7, status := "null", numGoals := 1,
              finished := [], lastPicTime := 0 },
    goals := [{ id := 9, user := 7, name := "Run", streak := 2, log := [],
                lastUpdate := 0, lastDay := 0, total := 3 }],
    nextId := 10 }

/-- The goal being logged in the `LoggingProgress` scenario. -/
def gLog : Goal :=
  { id := 9, user := 7, name := "Run", streak := 2, log := ["0/1 old"],
    lastUpdate := 0, lastDay := 0, total := 3 }

/-- A user in state `LoggingProgress(9)` (status `'logging_goal9'`). -/
def sLog : Sys :=
  { user := { name := 7, status := "logging_goal9", numGoals := 1,
              finished := [], lastPicTime := 0 },
    goals := [gLog], nextId := 10 }

/-- The wall clock when the log text arrives: 5000000 ms, next day of
week, month 0, date 2. -/
def dLog : JsDate := ⟨5000000, 1, 0, 2⟩

/-! Claim theorems. -/

/-- C1: for every goal with stored last-update day and timestamp, a
Streak Engine decision on a Progress event where the day-of-week delta
is +1 or -6 and the elapsed time since the last update is strictly less
than 172800 seconds extends the streak: the new streak equals the old
streak plus the increment (1 for Progress). -/
theorem streakProcess_extends_next_day (now : JsDate) (g : Goal)
    (hd : now.day - g.lastDay = 1 ∨ now.day - g.lastDay = -6)
    (ht : (now.time - g.lastUpdate) / 1000 < 172800) :
    (streakProcess .prog now g).streak = g.streak + 1 := by
  have h2 : (now.time - g.lastUpdate) / 1000 < 86400 * 2 := by linarith
  have hres : streak now g = .add := by
    simp only [streak]
    rw [if_pos ⟨hd, h2⟩]
  simp [streakProcess, hres, increment]

/-- The wall clock of the C1 witness: one hour (3600000 ms) after the
goal's last update, on the next day of the week. -/
def dW1 : JsDate := ⟨3600000, 3, 0, 1⟩

/-- The goal of the C1 witness: streak 3, last updated at time 0 on
day 2. -/
def gW1 : Goal :=
  { id := 1, user := 7, name := "Run", streak := 3, log := [],
    lastUpdate := 0, lastDay := 2, total := 5 }

/-- C1 witness: the day delta is +1, one hour (3600 s) has elapsed, and
the streak goes from 3 to 4. -/
theorem streakProcess_extends_next_day_witness :
    (dW1.day - gW1.lastDay = 1 ∨ dW1.day - gW1.lastDay = -6) ∧
    (dW1.time - gW1.lastUpdate) / 1000 < 172800 ∧
    (streakProcess .prog dW1 gW1).streak = gW1.streak + 1 :=
  ⟨Or.inl (by norm_num [dW1, gW1]), by norm_num [dW1, gW1],
   streakProcess_extends_next_day dW1 gW1
     (Or.inl (by norm_num [dW1, gW1])) (by norm_num [dW1, gW1])⟩

/-- C2: for every goal, when the day-of-week delta between now and the
goal's last update is 0, the new streak equals max(increment, old
streak): a same-day Progress event on a goal with streak 0 sets the
streak to 1, and a same-day View event (increment 0) never lowers it.
(For a View the store is not even written; the stored streak equals
`max 0 old` because streaks are nonnegative, the invariant of C9.) -/
theorem streakProcess_holds_same_day (ty : EventType) (now : JsDate) (g : Goal)
    (hd : now.day - g.lastDay = 0) (hs : 0 ≤ g.streak) :
    (streakProcess ty now g).streak = max (increment ty) g.streak := by
  have hnot : ¬((now.day - g.lastDay = 1 ∨ now.day - g.lastDay = -6) ∧
      (now.time - g.lastUpdate) / 1000 < 86400 * 2) := by
    rintro ⟨h1 | h1, -⟩ <;> omega
  have hres : streak now g = .keep := by
    simp only [streak]
    rw [if_neg hnot, if_pos hd]
  cases ty
  · simp [streakProcess, hres, increment]
  · simp [streakProcess, hres, increment]
    omega

/-- The goal of the C2 witness: streak 0, last updated on day 4. -/
def gW2 : Goal :=
  { id := 2, user := 7, name := "Read", streak := 0, log := [],
    lastUpdate := 0, lastDay := 4, total := 0 }

/-- The wall clock of the C2 witness: same day of week (day 4). -/
def dW2 : JsDate := ⟨7000, 4, 0, 1⟩

/-- C2 witness: a same-day Progress event on a goal with streak 0 yields
streak `max 1 0 = 1`. -/
theorem streakProcess_holds_same_day_witness :
    dW2.day - gW2.lastDay = 0 ∧ 0 ≤ gW2.streak ∧
    (streakProcess .prog dW2 gW2).streak = max (increment .prog) gW2.streak :=
  ⟨by norm_num [dW2, gW2], by norm_num [gW2],
   streakProcess_holds_same_day .prog dW2 gW2
     (by norm_num [dW2, gW2]) (by norm_num [gW2])⟩

/-- C3: a View event leaves the goal's total, lastUpdate timestamp,
lastDay and log unchanged, and changes the streak only when the decision
is reset (setting it to 0); a Progress event persists the new
lastUpdate/lastDay and adds its increment (1) to total. -/
theorem view_is_frame_prog_persists (now : JsDate) (g : Goal) :
    (streakProcess .view now g).total = g.total ∧
    (streakProcess .view now g).lastUpdate = g.lastUpdate ∧
    (streakProcess .view now g).lastDay = g.lastDay ∧
    (streakProcess .view now g).log = g.log ∧
    (streakProcess .view now g).streak =
      (if streak now g = .reset then 0 else g.streak) ∧
    (streakProcess .prog now g).total = g.total + 1 ∧
    (streakProcess .prog now g).lastUpdate = now.time ∧
    (streakProcess .prog now g).lastDay = now.day := by
  cases h : streak now g <;> simp [streakProcess, h, increment]

/-- C4: the claim that a 6th simultaneous live goal can never be created
fails on the code.  `makeGoal` rejects only when `numGoals == 5`
exactly, and `nameGoal` increments `numGoals` even on a duplicate-name
rejection, so `numGoals` can skip over 5; on `trace6` the user ends with
six live goals (and `numGoals = 10`). -/
theorem sixth_live_goal_created :
    (applySys d0 trace6 initSys).goals.length = 6 ∧
    (applySys d0 trace6 initSys).user.numGoals = 10 := by
  decide

/-- C5: the claim that a duplicate-name submission mutates no persistent
state fails on the code.  Submitting "run" while owning "Run" creates no
goal and leaves the status at `'naming_goal'`, but the goal-count update
of `nameGoal` (src/app.js lines 480-487) runs outside the duplicate
check and increments `numGoals` from 1 to 2. -/
theorem duplicate_name_rejection_increments_count :
    (receivedText d0 "run" sDup).goals = sDup.goals ∧
    (receivedText d0 "run" sDup).user.status = "naming_goal" ∧
    sDup.user.numGoals = 1 ∧
    (receivedText d0 "run" sDup).user.numGoals = 2 := by
  decide

/-- C6: the claim that a confirmed finish prepends the goal's summary to
the owner's finishedGoals fails on the code.  On `sFin` (one goal "Run",
total 3, empty finished list), the `"yef"` branch removes the goal and
decrements `numGoals`, but the finished list stays empty: the persisting
update is keyed by the goal's id against the User collection and writes
a field the user schema does not have. -/
theorem finish_loses_summary :
    (finishYef 9 sFin).goals = [] ∧
    (finishYef 9 sFin).user.numGoals = 0 ∧
    (finishYef 9 sFin).user.finished = [] ∧
    sFin.user.finished = [] := by
  decide

/-- C7: the claim that a confirmed delete of a missing goal id leaves
the goal count unchanged fails on the code.  `Goal.remove` reports no
error when nothing matches, so the success callback decrements
`numGoals` anyway: deleting id 42 from a fresh user takes `numGoals`
from 0 to -1. -/
theorem delete_missing_goal_decrements_count :
    initSys.goals = [] ∧ initSys.user.numGoals = 0 ∧
    (deleteYes 42 initSys).goals = [] ∧
    (deleteYes 42 initSys).user.numGoals = -1 := by
  decide

/-- C8 counterexample: in state `LoggingProgress(9)` the text handler
does not invoke the Streak Engine.  Handling "hi" leaves the goal's
total at 3 and lastUpdate at 0, while a progress-mode Streak Engine
invocation on that goal at that instant yields total 4 and lastUpdate
5000000 — so the handler performed no such invocation (it happened
earlier, at the `"prog"` quick reply). -/
theorem logging_text_skips_streak_engine :
    sLog.goals = [gLog] ∧
    sLog.user.status = "logging_goal" ++ toString gLog.id ∧
    (receivedText dLog "hi" sLog).goals.map Goal.total = [3] ∧
    (receivedText dLog "hi" sLog).goals.map Goal.lastUpdate = [0] ∧
    (receivedText dLog "hi" sLog).user.status = "null" ∧
    (streakProcess .prog dLog gLog).total = 4 ∧
    (streakProcess .prog dLog gLog).lastUpdate = 5000000 := by
  refine ⟨by decide, by decide, by decide, by decide, by decide, ?_, ?_⟩ <;>
    norm_num [streakProcess, streak, increment, gLog, dLog]

/-- C8 (amended): for every user in state LoggingProgress(X) — any
store in which some goal matches the id carried by the status — handling
a text event validates that the text length is at most 96 (rejecting
longer texts with no mutation), prepends a (date, text) entry to goal
X's log while leaving every other goal untouched, and transitions the
user to Idle; the Streak Engine is not invoked here (it ran in progress
mode earlier, when goal X was chosen via the `"prog"` quick reply). -/
theorem logGoal_validates_logs_idles (now : JsDate) (s : Sys)
    (idStr text : String) (hex : ∃ g ∈ s.goals, toString g.id = idStr) :
    logGoal idStr text now s =
      if text.length > 96 then s
      else { s with
             goals := s.goals.map (fun g =>
               if toString g.id == idStr then
                 { g with log := (toString now.month ++ "/" ++
                    toString now.date ++ " " ++ text) :: g.log }
               else g),
             user := { s.user with status := "null" } } := by
  by_cases h : text.length > 96
  · simp [logGoal, h]
  · obtain ⟨g, hg, hid⟩ := hex
    cases hfind : s.goals.find? (fun g' => toString g'.id == idStr) with
    | none =>
      exact absurd (by simpa using List.find?_eq_none.mp hfind g hg) (by simp [hid])
    | some g' =>
      simp [logGoal, h, hfind]

/-- A second goal in the same store, untouched by logging goal 9. -/
def gOther : Goal :=
  { id := 4, user := 7, name := "Read", streak := 1, log := ["0/1 x"],
    lastUpdate := 0, lastDay := 0, total := 1 }

/-- A user in state `LoggingProgress(9)` owning two goals: goal 9 being
logged and goal 4, which must not change. -/
def sLog2 : Sys :=
  { user := { name := 7, status := "logging_goal9", numGoals := 2,
              finished := [], lastPicTime := 0 },
    goals := [gLog, gOther], nextId := 10 }

/-- C8 amended witness: in the two-goal store `sLog2` the text "hi"
(length 2) is prepended as "0/2 hi" onto goal 9's log, goal 4 is left
untouched by the map, and the user returns to Idle. -/
theorem logGoal_validates_logs_idles_witness :
    (∃ g ∈ sLog2.goals, toString g.id = "9") ∧
    logGoal "9" "hi" dLog sLog2 =
      if "hi".length > 96 then sLog2
      else { sLog2 with
             goals := sLog2.goals.map (fun g =>
               if toString g.id == "9" then
                 { g with log := (toString dLog.month ++ "/" ++
                    toString dLog.date ++ " " ++ "hi") :: g.log }
               else g),
             user := { sLog2.user with status := "null" } } :=
  ⟨⟨gLog, by decide, by decide⟩,
   logGoal_validates_logs_idles dLog sLog2 "9" "hi"
     ⟨gLog, by decide, by decide⟩⟩

/-- Helper for C9: one `streakProcess` step preserves nonnegativity of
streak and total. -/
theorem streakProcess_nonneg (ty : EventType) (now : JsDate) (g : Goal)
    (hs : 0 ≤ g.streak) (ht : 0 ≤ g.total) :
    0 ≤ (streakProcess ty now g).streak ∧
    0 ≤ (streakProcess ty now g).total := by
  cases h : streak now g <;> cases ty <;>
    simp [streakProcess, h, increment] <;> omega

/-- Helper for C9: any event sequence preserves nonnegativity of streak
and total. -/
theorem applyStreakEvents_nonneg (es : List (EventType × JsDate)) :
    ∀ g : Goal, 0 ≤ g.streak → 0 ≤ g.total →
      0 ≤ (applyStreakEvents es g).streak ∧
      0 ≤ (applyStreakEvents es g).total := by
  induction es with
  | nil => intro g hs ht; simpa [applyStreakEvents] using ⟨hs, ht⟩
  | cons e es ih =>
    intro g hs ht
    have h := streakProcess_nonneg e.1 e.2 g hs ht
    simpa [applyStreakEvents] using ih (streakProcess e.1 e.2 g) h.1 h.2

/-- C9: for every goal and every sequence of View and Progress events
applied to it after creation, the goal's streak and total remain greater
than or equal to 0. -/
theorem streak_total_nonneg (uid gid : ℤ) (nm : String) (now0 : JsDate)
    (es : List (EventType × JsDate)) :
    0 ≤ (applyStreakEvents es (newGoal uid gid nm now0)).streak ∧
    0 ≤ (applyStreakEvents es (newGoal uid gid nm now0)).total :=
  applyStreakEvents_nonneg es _ (by simp [newGoal]) (by simp [newGoal])

/-- C10: the "Payload finished" postback produces a message containing
only the header line "Here are your finished goals:" (and its trailing
newline) with no finished-goal entries, whatever the user's finished
list holds: the listing loop is bounded by `result.length`, a field the
User record does not have. -/
theorem finishedMessage_header_only (u : User) :
    finishedMessage u = "Here are your finished goals:\u000A" := by
  rfl

end Goalt
